import Mathlib

/-!
Verification of the certificate-generation subsystem of hellstar-lab/certificate123.

The definitions below are shallow embeddings of the JavaScript source:
* `src/unnamed/part_009` (the `CertificateGenerator` service: `generatePNG`,
  `generatePDF`, `generateCertificate`, `getSystemFont` and the font tables),
* `src/backend/models/Certificate.js` (`generateNextId` and the schema),
* `src/backend/routes/certificate.js` (the create, download and bulk-delete
  handlers).

Numbers are modelled as rationals (`ℚ`): both renderers evaluate the very same
floating-point expressions, so exact-arithmetic equalities between them, and
the concrete scenarios of the spec (whose values are exactly representable),
transfer directly.  JavaScript truthiness of `x || d` on numbers (where both
`undefined` and `0` select the default) is modelled by `jsOrNum`, and on
strings (where both `undefined` and the empty string select the default) by
`jsOrStr`.  Asynchronous I/O (file reads/writes, database round-trips) is
parameterised: handlers take the outcome of each external call as an argument.
-/

namespace Certificate123

/-- JS `v || d` for an optional number: `undefined` and `0` are falsy. -/
def jsOrNum (v : Option ℚ) (d : ℚ) : ℚ :=
  match v with
  | none => d
  | some x => if x = 0 then d else x

/-- JS `v || d` for an optional string: `undefined` and `""` are falsy. -/
def jsOrStr (v : Option String) (d : String) : String :=
  match v with
  | none => d
  | some s => if s = "" then d else s

/-- The `containerDimensions` object sent by the frontend; either the whole
object or each field may be absent (`containerDimensions?.width`). -/
structure ContainerDimensions where
  width : Option ℚ
  height : Option ℚ
deriving DecidableEq, Repr

/-- Placeholder type enum from the Certificate/Template schemas:
`enum: ['name', 'id']`. -/
inductive PlaceholderType where
  | name
  | id
deriving DecidableEq, Repr

/-- A placeholder descriptor as stored on a template
(`src/backend/models/Certificate.js` lines 27-43; fields `rotation`, `width`
and `height` are recorded in the schema but read by neither renderer and are
omitted here). -/
structure Placeholder where
  type : PlaceholderType
  x : ℚ
  y : ℚ
  fontSize : Option ℚ
  fontFamily : Option String
  color : Option String
  fontWeight : Option String
  textAlign : Option String
deriving DecidableEq, Repr

/-- The pair of scale factors each renderer derives. -/
structure ScaleFactors where
  scaleX : ℚ
  scaleY : ℚ
deriving DecidableEq, Repr

/-- The scaled values each renderer hands to its drawing call. -/
structure ScaledPlaceholder where
  x : ℚ
  y : ℚ
  fontSize : ℚ
deriving DecidableEq, Repr

/-- Scale-factor block of `generatePNG` (`src/unnamed/part_009` lines 228-238):
`frontendDisplayWidth = containerDimensions?.width || 800`,
`frontendDisplayHeight = containerDimensions?.height || (frontendDisplayWidth * actualHeight / actualWidth)`,
`scaleX = actualWidth / frontendDisplayWidth`,
`scaleY = actualHeight / frontendDisplayHeight`. -/
def pngScaleFactors (actualWidth actualHeight : ℚ)
    (containerDimensions : Option ContainerDimensions) : ScaleFactors :=
  let frontendDisplayWidth :=
    jsOrNum (containerDimensions.bind ContainerDimensions.width) 800
  let frontendDisplayHeight :=
    jsOrNum (containerDimensions.bind ContainerDimensions.height)
      (frontendDisplayWidth * actualHeight / actualWidth)
  ⟨actualWidth / frontendDisplayWidth, actualHeight / frontendDisplayHeight⟩

/-- Scale-factor block of `generatePDF` (`src/unnamed/part_009` lines 316-326),
transcribed separately because the source duplicates the computation. -/
def pdfScaleFactors (actualWidth actualHeight : ℚ)
    (containerDimensions : Option ContainerDimensions) : ScaleFactors :=
  let frontendDisplayWidth :=
    jsOrNum (containerDimensions.bind ContainerDimensions.width) 800
  let frontendDisplayHeight :=
    jsOrNum (containerDimensions.bind ContainerDimensions.height)
      (frontendDisplayWidth * actualHeight / actualWidth)
  ⟨actualWidth / frontendDisplayWidth, actualHeight / frontendDisplayHeight⟩

/-- Per-placeholder scaling in `generatePNG` (`src/unnamed/part_009`
lines 251-253): `scaledX = placeholder.x * scaleX`,
`scaledY = placeholder.y * scaleY`,
`scaledFontSize = (placeholder.fontSize || 24) * scaleX`. -/
def pngScalePlaceholder (actualWidth actualHeight : ℚ)
    (containerDimensions : Option ContainerDimensions)
    (placeholder : Placeholder) : ScaledPlaceholder :=
  let s := pngScaleFactors actualWidth actualHeight containerDimensions
  ⟨placeholder.x * s.scaleX, placeholder.y * s.scaleY,
    jsOrNum placeholder.fontSize 24 * s.scaleX⟩

/-- Per-placeholder scaling in `generatePDF` (`src/unnamed/part_009`
lines 333-335), again a separate transcription of the duplicated code. -/
def pdfScalePlaceholder (actualWidth actualHeight : ℚ)
    (containerDimensions : Option ContainerDimensions)
    (placeholder : Placeholder) : ScaledPlaceholder :=
  let s := pdfScaleFactors actualWidth actualHeight containerDimensions
  ⟨placeholder.x * s.scaleX, placeholder.y * s.scaleY,
    jsOrNum placeholder.fontSize 24 * s.scaleX⟩

/-- The value `frontendDisplayWidth` as both renderers compute it; named separately so
that the fallback behaviour can be stated. -/
def frontendDisplayWidth (containerDimensions : Option ContainerDimensions) : ℚ :=
  jsOrNum (containerDimensions.bind ContainerDimensions.width) 800

/-- The value `frontendDisplayHeight` as both renderers compute it. -/
def frontendDisplayHeight (actualWidth actualHeight : ℚ)
    (containerDimensions : Option ContainerDimensions) : ℚ :=
  jsOrNum (containerDimensions.bind ContainerDimensions.height)
    (frontendDisplayWidth containerDimensions * actualHeight / actualWidth)

/-- Which renderer a font lookup targets (`this.fontMap[type]`). -/
inductive RenderTarget where
  | canvas
  | pdf
deriving DecidableEq, Repr

/-- The canvas half of `initializeFontMap` (`src/unnamed/part_009`
lines 17-89), as an association list. -/
def canvasFontMap : List (String × String) :=
  [("Inter", "Arial"), ("Roboto", "Arial"), ("Open Sans", "Arial"),
   ("Lato", "Arial"), ("Montserrat", "Arial"), ("Source Sans Pro", "Arial"),
   ("Raleway", "Arial"), ("Ubuntu", "Arial"), ("Nunito", "Arial"),
   ("Poppins", "Arial"), ("Oswald", "Arial"), ("Mukti", "Arial"),
   ("Fira Sans", "Arial"), ("PT Sans", "Arial"), ("Dosis", "Arial"),
   ("Quicksand", "Arial"), ("Work Sans", "Arial"), ("Rubik", "Arial"),
   ("Barlow", "Arial"), ("Oxygen", "Arial"),
   ("Playfair Display", "Times New Roman"), ("Merriweather", "Times New Roman"),
   ("Lora", "Times New Roman"), ("PT Serif", "Times New Roman"),
   ("Crimson Text", "Times New Roman"), ("Libre Baskerville", "Times New Roman"),
   ("Source Serif Pro", "Times New Roman"), ("Cormorant Garamond", "Times New Roman"),
   ("EB Garamond", "Times New Roman"), ("Vollkorn", "Times New Roman"),
   ("Bitter", "Times New Roman"), ("Arvo", "Times New Roman"),
   ("Rokkitt", "Times New Roman"), ("Alegreya", "Times New Roman"),
   ("Cardo", "Times New Roman"),
   ("Fira Code", "Courier New"), ("Source Code Pro", "Courier New"),
   ("JetBrains Mono", "Courier New"), ("Roboto Mono", "Courier New"),
   ("Ubuntu Mono", "Courier New"), ("Space Mono", "Courier New"),
   ("Inconsolata", "Courier New"), ("Anonymous Pro", "Courier New"),
   ("Dancing Script", "Arial"), ("Pacifico", "Arial"), ("Lobster", "Arial"),
   ("Righteous", "Arial"), ("Fredoka One", "Arial"), ("Comfortaa", "Arial"),
   ("Kalam", "Arial"), ("Caveat", "Arial"), ("Satisfy", "Arial"),
   ("Great Vibes", "Arial"), ("Amatic SC", "Arial"), ("Bangers", "Arial"),
   ("Arial", "Arial"), ("Times New Roman", "Times New Roman"),
   ("Helvetica", "Arial"), ("Georgia", "Georgia"), ("Verdana", "Verdana"),
   ("Courier New", "Courier New")]

/-- The pdf half of `initializeFontMap` (`src/unnamed/part_009`
lines 90-161). -/
def pdfFontMap : List (String × String) :=
  [("Inter", "Helvetica"), ("Roboto", "Helvetica"), ("Open Sans", "Helvetica"),
   ("Lato", "Helvetica"), ("Montserrat", "Helvetica"), ("Source Sans Pro", "Helvetica"),
   ("Raleway", "Helvetica"), ("Ubuntu", "Helvetica"), ("Nunito", "Helvetica"),
   ("Poppins", "Helvetica"), ("Oswald", "Helvetica"), ("Mukti", "Helvetica"),
   ("Fira Sans", "Helvetica"), ("PT Sans", "Helvetica"), ("Dosis", "Helvetica"),
   ("Quicksand", "Helvetica"), ("Work Sans", "Helvetica"), ("Rubik", "Helvetica"),
   ("Barlow", "Helvetica"), ("Oxygen", "Helvetica"),
   ("Playfair Display", "Times-Roman"), ("Merriweather", "Times-Roman"),
   ("Lora", "Times-Roman"), ("PT Serif", "Times-Roman"),
   ("Crimson Text", "Times-Roman"), ("Libre Baskerville", "Times-Roman"),
   ("Source Serif Pro", "Times-Roman"), ("Cormorant Garamond", "Times-Roman"),
   ("EB Garamond", "Times-Roman"), ("Vollkorn", "Times-Roman"),
   ("Bitter", "Times-Roman"), ("Arvo", "Times-Roman"),
   ("Rokkitt", "Times-Roman"), ("Alegreya", "Times-Roman"),
   ("Cardo", "Times-Roman"),
   ("Fira Code", "Courier"), ("Source Code Pro", "Courier"),
   ("JetBrains Mono", "Courier"), ("Roboto Mono", "Courier"),
   ("Ubuntu Mono", "Courier"), ("Space Mono", "Courier"),
   ("Inconsolata", "Courier"), ("Anonymous Pro", "Courier"),
   ("Dancing Script", "Helvetica"), ("Pacifico", "Helvetica"), ("Lobster", "Helvetica"),
   ("Righteous", "Helvetica"), ("Fredoka One", "Helvetica"), ("Comfortaa", "Helvetica"),
   ("Kalam", "Helvetica"), ("Caveat", "Helvetica"), ("Satisfy", "Helvetica"),
   ("Great Vibes", "Helvetica"), ("Amatic SC", "Helvetica"), ("Bangers", "Helvetica"),
   ("Arial", "Helvetica"), ("Times New Roman", "Times-Roman"),
   ("Helvetica", "Helvetica"), ("Georgia", "Times-Roman"),
   ("Verdana", "Helvetica"), ("Courier New", "Courier")]

/-- Embedding of `getSystemFont` (`src/unnamed/part_009` lines 166-168):
`this.fontMap[type][fontFamily] || (type === 'pdf' ? 'Helvetica' : 'Arial')`. -/
def getSystemFont (fontFamily : String) (target : RenderTarget) : String :=
  let table := match target with
    | .canvas => canvasFontMap
    | .pdf => pdfFontMap
  jsOrStr (table.lookup fontFamily)
    (match target with | .pdf => "Helvetica" | .canvas => "Arial")

/-- One `ctx.fillText` call issued by `generatePNG`, with the canvas state it
is issued under (`src/unnamed/part_009` lines 262-274). -/
structure PngTextCmd where
  text : String
  x : ℚ
  y : ℚ
  fontSize : ℚ
  fontWeight : String
  font : String
  color : String
  align : String
  baseline : String
deriving DecidableEq, Repr

/-- One `doc.text` call issued by `generatePDF`, with the document state it is
issued under (`src/unnamed/part_009` lines 337-349). -/
structure PdfTextCmd where
  text : String
  x : ℚ
  y : ℚ
  fontSize : ℚ
  font : String
  color : String
  align : String
deriving DecidableEq, Repr

/-- The resolved value of a placeholder:
`placeholderValues[placeholder.type] || ''` (`src/unnamed/part_009`
lines 248 and 330). -/
def resolvedValue (placeholderValues : PlaceholderType → Option String)
    (placeholder : Placeholder) : String :=
  jsOrStr (placeholderValues placeholder.type) ""

/-- The text-overlay loop of `generatePNG` (`src/unnamed/part_009`
lines 247-276): for each placeholder whose resolved value is truthy, scale the
coordinates and font size, set the font/color/alignment state and draw; falsy
(empty) values produce no drawing call.  The loop body is total: it contains
no throwing operation. -/
def pngOverlay (actualWidth actualHeight : ℚ)
    (containerDimensions : Option ContainerDimensions)
    (placeholders : List Placeholder)
    (placeholderValues : PlaceholderType → Option String) : List PngTextCmd :=
  placeholders.filterMap (fun placeholder =>
    let value := resolvedValue placeholderValues placeholder
    if value = "" then none
    else
      let scaled :=
        pngScalePlaceholder actualWidth actualHeight containerDimensions placeholder
      let fontFamily := jsOrStr placeholder.fontFamily "Arial"
      let systemFont := getSystemFont fontFamily .canvas
      let fontWeight := jsOrStr placeholder.fontWeight "normal"
      some ⟨value, scaled.x, scaled.y, scaled.fontSize, fontWeight, systemFont,
        jsOrStr placeholder.color "#000000",
        jsOrStr placeholder.textAlign "left", "top"⟩)

/-- The text-overlay loop of `generatePDF` (`src/unnamed/part_009`
lines 329-351), a separate transcription of the duplicated logic. -/
def pdfOverlay (actualWidth actualHeight : ℚ)
    (containerDimensions : Option ContainerDimensions)
    (placeholders : List Placeholder)
    (placeholderValues : PlaceholderType → Option String) : List PdfTextCmd :=
  placeholders.filterMap (fun placeholder =>
    let value := resolvedValue placeholderValues placeholder
    if value = "" then none
    else
      let scaled :=
        pdfScalePlaceholder actualWidth actualHeight containerDimensions placeholder
      let fontFamily := jsOrStr placeholder.fontFamily "Arial"
      let systemFont := getSystemFont fontFamily .pdf
      some ⟨value, scaled.x, scaled.y, scaled.fontSize, systemFont,
        jsOrStr placeholder.color "#000000",
        jsOrStr placeholder.textAlign "left"⟩)

/-- Certificate status enum
(`src/backend/models/Certificate.js` lines 63-67). -/
inductive CertStatus where
  | pending
  | generated
  | failed
  | archived
deriving DecidableEq, Repr

/-- Metadata of one generated output file
(`generatedFiles.pdf` / `generatedFiles.png` in the schema; the `url` field,
set by the route from the Mongo object id, is not read by any claim and is
omitted). -/
structure FileMeta where
  filename : String
  path : String
  size : ℕ
deriving DecidableEq, Repr

/-- The `generatedFiles` object produced by `generateCertificate`. -/
structure GeneratedFilesInfo where
  pdf : FileMeta
  png : FileMeta
deriving DecidableEq, Repr

/-- The slice of a Certificate document the claims observe.
`generatedFiles = none` models the empty object `{}` the route assigns on
generation failure (no file metadata). -/
structure CertRecord where
  certificateId : String
  status : CertStatus
  generatedFiles : Option GeneratedFilesInfo
deriving DecidableEq, Repr

/-- The slice of a Template document the create route reads. -/
structure TemplateDoc where
  name : String
  filename : String
  placeholders : List Placeholder
deriving Repr

/-- Embedding of `generateCertificate` (`src/unnamed/part_009` lines 185-211): runs
`generatePNG`, then `generatePDF`; if either throws, the whole call throws
(wrapped as `Failed to generate certificate: ...`); otherwise it returns both
file records.  The outcome of each renderer (which performs file I/O) is a
parameter; `pdfSize`/`pngSize` are the `fs.stat` sizes of the written files. -/
def generateCertificate (certificateId : String)
    (pngResult pdfResult : Except String String)
    (pdfSize pngSize : ℕ) : Except String GeneratedFilesInfo :=
  match pngResult with
  | .error e => .error ("Failed to generate certificate: " ++ e)
  | .ok pngPath =>
    match pdfResult with
    | .error e => .error ("Failed to generate certificate: " ++ e)
    | .ok pdfPath =>
      .ok ⟨⟨certificateId ++ ".pdf", pdfPath, pdfSize⟩,
           ⟨certificateId ++ ".png", pngPath, pngSize⟩⟩

/-- The JSON body and status an HTTP handler responds with. -/
structure HttpResponse where
  status : ℕ
  success : Bool
  message : String
deriving DecidableEq, Repr

/-- Observable outcome of one run of the create route: the response, whether a
certificate ID was assigned (`Certificate.generateNextId` was awaited), the
record as first saved, the record as finally saved, and whether the rendering
pipeline was invoked. -/
structure CreateResult where
  response : HttpResponse
  idAssigned : Bool
  initialRecord : Option CertRecord
  finalRecord : Option CertRecord
  renderersInvoked : Bool
deriving DecidableEq, Repr

/-- The create route `router.post('/create')`
(`src/backend/routes/certificate.js` lines 17-151), with the external calls
parameterised: `template` is the result of the `Template.findOne` lookup,
`certificateId` the value `Certificate.generateNextId()` would resolve to, and
`gen` the outcome of `certificateGenerator.generateCertificate`.  Database
saves are assumed to succeed (the outer catch for save/duplicate-key errors is
outside every claim).  Control flow: template lookup (404), placeholder
presence check (400), name/id placeholder check (400), then ID assignment,
record creation in `pending` status, generation, and the status flip to
`generated` (with file metadata) or `failed` (with `generatedFiles = {}`),
always answered with 201. -/
def handleCreate (template : Option TemplateDoc) (certificateId : String)
    (gen : Except String GeneratedFilesInfo) : CreateResult :=
  match template with
  | none =>
    ⟨⟨404, false, "Template not found or access denied"⟩, false, none, none, false⟩
  | some t =>
    if t.placeholders.isEmpty then
      ⟨⟨400, false,
        "Template must have placeholders configured before generating certificates"⟩,
        false, none, none, false⟩
    else if !(t.placeholders.any (fun p => p.type == .name)) ||
            !(t.placeholders.any (fun p => p.type == .id)) then
      ⟨⟨400, false, "Template must have both name and ID placeholders configured"⟩,
        false, none, none, false⟩
    else
      let pendingRecord : CertRecord := ⟨certificateId, .pending, none⟩
      match gen with
      | .ok files =>
        ⟨⟨201, true, "Certificate created successfully"⟩, true,
          some pendingRecord, some ⟨certificateId, .generated, some files⟩, true⟩
      | .error _ =>
        ⟨⟨201, true, "Certificate created successfully"⟩, true,
          some pendingRecord, some ⟨certificateId, .failed, none⟩, true⟩

/-- The lookup `certificate.generatedFiles[format]` as read by the download route. -/
def getGeneratedFile (generatedFiles : Option GeneratedFilesInfo)
    (format : String) : Option FileMeta :=
  match generatedFiles with
  | none => none
  | some g =>
    if format = "pdf" then some g.pdf
    else if format = "png" then some g.png
    else none

/-- Observable outcome of the download route: response data and whether the
file was actually streamed back. -/
structure DownloadResult where
  status : ℕ
  served : Bool
  message : String
deriving DecidableEq, Repr

/-- The download route `router.get('/:id/download/:format')`
(`src/backend/routes/certificate.js` lines 277-344): format whitelist (400),
certificate lookup (404), status gate — any status other than `generated` is
refused with 400 —, file-metadata lookup (404), on-disk existence check (404),
then the file is served.  `cert` is the lookup result and `fileOnDisk` the
`getFileInfo(...).exists` answer. -/
def handleDownload (format : String) (cert : Option CertRecord)
    (fileOnDisk : Bool) : DownloadResult :=
  if !(format == "pdf" || format == "png") then
    ⟨400, false, "Invalid format. Supported formats: pdf, png"⟩
  else
    match cert with
    | none => ⟨404, false, "Certificate not found or access denied"⟩
    | some c =>
      if c.status != .generated then
        ⟨400, false, "Certificate is not ready for download"⟩
      else
        match getGeneratedFile c.generatedFiles format with
        | none => ⟨404, false, format.toUpper ++ " file not found"⟩
        | some _ =>
          if !fileOnDisk then ⟨404, false, format.toUpper ++ " file not found on disk"⟩
          else ⟨200, true, ""⟩

/-- The stem `CERT-<year>-` that `generateNextId` queries for
(`src/backend/models/Certificate.js` line 169). -/
def certIdYearStem (year : ℕ) : String :=
  "CERT-" ++ toString year ++ "-"

/-- Whether the first character list is an initial segment of the second:
the anchored regex match `^<stem>` MongoDB evaluates for
`certificateId: {$regex: prefixed}`. -/
def stemMatches : List Char → List Char → Bool
  | [], _ => true
  | _ :: _, [] => false
  | c :: cs, d :: ds => c == d && stemMatches cs ds

/-- The certificate IDs in the database matching the regex `^CERT-<year>-`. -/
def matchingCertIds (year : ℕ) (db : List String) : List String :=
  db.filter (fun s => stemMatches (certIdYearStem year).data s.data)

/-- Strict lexicographic order on character lists: MongoDB compares string
keys (such as `certificateId` under `.sort({certificateId: -1})`) by simple
byte-wise comparison of their UTF-8 encodings, which on these ASCII IDs is
exactly this codepoint-wise lexicographic order. -/
def charListLt : List Char → List Char → Bool
  | _, [] => false
  | [], _ :: _ => true
  | c :: cs, d :: ds => if c < d then true else if d < c then false else charListLt cs ds

/-- The sort-descending step: keep the greater of the accumulator and the
next matching ID. -/
def pickLater (best : Option String) (s : String) : Option String :=
  match best with
  | none => some s
  | some b => if charListLt b.data s.data then some s else some b

/-- Embedding of `findOne({certificateId: regex}).sort({certificateId: -1})`
(`src/backend/models/Certificate.js` lines 172-174): the lexicographically
greatest matching certificate ID, if any. -/
def latestCertId (year : ℕ) (db : List String) : Option String :=
  (matchingCertIds year db).foldl pickLater none

/-- JS `split('-')`, on the character list of a string: split at every
hyphen; no limit, adjacent hyphens produce empty fields. -/
def splitDashChars : List Char → List (List Char)
  | [] => [[]]
  | c :: rest =>
    let r := splitDashChars rest
    if c = '-' then [] :: r
    else
      match r with
      | [] => [[c]]
      | h :: t => (c :: h) :: t

/-- JS `latest.split('-')`. -/
def splitDash (s : String) : List String :=
  (splitDashChars s.data).map List.asString

/-- JS `parseInt` restricted to the shapes arising here: parse the leading
run of decimal digits; `none` models `NaN` (no leading digit, including the
`undefined` produced by an out-of-range `split('-')[2]`, whose string
conversion `"undefined"` has no leading digit either). -/
def jsParseInt (s : String) : Option ℕ :=
  let ds := s.data.takeWhile Char.isDigit
  if ds.isEmpty then none
  else some (ds.foldl (fun n c => 10 * n + (c.toNat - 48)) 0)

/-- Embedding of `nextNumber.toString().padStart(3, '0')`
(`src/backend/models/Certificate.js` line 183). -/
def padStart3 (s : String) : String :=
  if s.length < 3 then List.asString (List.replicate (3 - s.length) '0') ++ s else s

/-- Embedding of `Certificate.generateNextId` (`src/backend/models/Certificate.js`
lines 167-185): take the lexicographically greatest certificate ID of the
current year, parse its third dash-separated component (`split('-')[2]`) with
`parseInt`, add one (1 when no ID of the year exists), pad to at least three
digits (`NaN` stands as is) and prepend the year stem.  `db` is the list of
certificate IDs existing in the database at query time; `year` is
`new Date().getFullYear()`. -/
def generateNextId (year : ℕ) (db : List String) : String :=
  let nextNumber : Option ℕ :=
    match latestCertId year db with
    | none => some 1
    | some latest =>
      (jsParseInt ((splitDash latest).getD 2 "")).map (fun n => n + 1)
  let padded :=
    match nextNumber with
    | some n => padStart3 (toString n)
    | none => padStart3 "NaN"
  certIdYearStem year ++ padded

/-- A Certificate document as the bulk-delete route sees it.  The fields are
the schema paths the route queries; `isActive` and `isArchived` are `Option`
because the route's filters test `$exists` (`none` models a missing field —
`isArchived` is in fact declared by no schema and is therefore always
missing, and BSON `null` matches the same `$or` arm as missing). -/
structure BulkCert where
  mongoId : ℕ
  createdBy : ℕ
  certificateId : String
  status : CertStatus
  isActive : Option Bool
  isArchived : Option Bool
  generatedFiles : Option GeneratedFilesInfo
deriving DecidableEq, Repr

/-- The read `certificate.pdfPath` performed by the bulk-delete loop
(`src/backend/routes/certificate.js` line 454).  A hydrated Mongoose document
exposes only the paths declared in its schema; `certificateSchema`
(`src/backend/models/Certificate.js` lines 3-116) declares no `pdfPath` path
(generated-file locations live at `generatedFiles.pdf.path`), and no virtual
of that name exists, so this property read always yields `undefined`. -/
def BulkCert.pdfPath (_ : BulkCert) : Option String := none

/-- The read `certificate.pngPath` (`src/backend/routes/certificate.js` line 460);
likewise not a schema path, always `undefined`. -/
def BulkCert.pngPath (_ : BulkCert) : Option String := none

/-- The `Certificate.find` filter of the bulk-delete route
(`src/backend/routes/certificate.js` lines 419-436): owned by the admin,
`isActive` missing or `true`, `isArchived` missing, `false` or `null`. -/
def bulkFindFilter (adminId : ℕ) (c : BulkCert) : Bool :=
  c.createdBy == adminId &&
  (c.isActive == none || c.isActive == some true) &&
  (c.isArchived == none || c.isArchived == some false)

/-- The `Certificate.deleteMany` filter of the bulk-delete route
(`src/backend/routes/certificate.js` lines 473-480): owned by the admin,
`isActive` equal to `true`, `isArchived` missing or `false`. -/
def bulkDeleteFilter (adminId : ℕ) (c : BulkCert) : Bool :=
  c.createdBy == adminId &&
  c.isActive == some true &&
  (c.isArchived == none || c.isArchived == some false)

/-- Embedding of `fs.unlink` on an optional path over a modelled disk (a list of existing
file paths): a present path is removed, an absent one (`undefined`, which the
route never reaches because of the truthiness guard) leaves the disk as is. -/
def unlinkFile (disk : List String) (p : Option String) : List String :=
  match p with
  | none => disk
  | some fp => disk.filter (fun f => f != fp)

/-- Observable outcome of the bulk-delete route: response, surviving database
records, surviving disk files, and the `filesDeleted` counter it reports. -/
structure BulkDeleteResult where
  response : HttpResponse
  records : List BulkCert
  disk : List String
  filesDeleted : ℕ
deriving DecidableEq, Repr

/-- The bulk-delete route `router.delete('/bulk')`
(`src/backend/routes/certificate.js` lines 398-500): any confirmation text
other than exactly `DELETE ALL CERTIFICATES` is rejected with 400 before any
database or file operation; otherwise the route finds the matching records,
attempts to unlink `certificate.pdfPath` / `certificate.pngPath` for each
(guarded by truthiness, and counted in `filesDeleted`), then hard-deletes the
records matching the `deleteMany` filter. -/
def handleBulkDelete (confirmText : String) (adminId : ℕ)
    (records : List BulkCert) (disk : List String) : BulkDeleteResult :=
  if confirmText != "DELETE ALL CERTIFICATES" then
    ⟨⟨400, false,
      "Invalid confirmation text. Please type \"DELETE ALL CERTIFICATES\" to confirm."⟩,
      records, disk, 0⟩
  else
    let found := records.filter (bulkFindFilter adminId)
    if found.isEmpty then
      ⟨⟨200, true, "No certificates found to delete"⟩, records, disk, 0⟩
    else
      let afterFiles := found.foldl
        (fun acc c =>
          let acc1 := match c.pdfPath with
            | some p => (unlinkFile acc.1 (some p), acc.2 + 1)
            | none => acc
          match c.pngPath with
          | some p => (unlinkFile acc1.1 (some p), acc1.2 + 1)
          | none => acc1)
        (disk, 0)
      let remaining := records.filter (fun c => !(bulkDeleteFilter adminId c))
      let deletedCount := (records.filter (bulkDeleteFilter adminId)).length
      ⟨⟨200, true,
        "Successfully deleted " ++ toString deletedCount ++ " certificates"⟩,
        remaining, afterFiles.1, afterFiles.2⟩

/-! ## Claims -/

/-- C1: for every template size, container-dimensions input and placeholder,
the raster (`generatePNG`) and vector (`generatePDF`) renderers compute
identical scale factors and identical scaled `(x, y, fontSize)`: the
duplicated scale computation is the same function of the template image size
and the container dimensions. -/
theorem c1_renderers_compute_identical_scaling (actualWidth actualHeight : ℚ)
    (cd : Option ContainerDimensions) (p : Placeholder) :
    pngScaleFactors actualWidth actualHeight cd =
      pdfScaleFactors actualWidth actualHeight cd ∧
    pngScalePlaceholder actualWidth actualHeight cd p =
      pdfScalePlaceholder actualWidth actualHeight cd p :=
  ⟨rfl, rfl⟩

/-- C2 counterexample: the claim says `y` is multiplied by `scaleX`; for a
1000×600 template with container 800×600 the code multiplies `y = 50` by
`scaleY = 1`, yielding 50, while `y * scaleX = 62.5`. -/
theorem c2_y_uses_scaleY_counterexample :
    (pngScalePlaceholder 1000 600 (some ⟨some 800, some 600⟩)
        ⟨.name, 100, 50, some 24, none, none, none, none⟩).y = 50 ∧
    (50 : ℚ) * (pngScaleFactors 1000 600 (some ⟨some 800, some 600⟩)).scaleX
      = 125 / 2 ∧
    (50 : ℚ) ≠ 125 / 2 := by
  refine ⟨?_, ?_, by norm_num⟩
  · norm_num [pngScalePlaceholder, pngScaleFactors, jsOrNum]
  · norm_num [pngScaleFactors, jsOrNum]

/-- C2 (amended): `x` and `fontSize` are multiplied by `scaleX` and `y` by
`scaleY` in both renderers; for a 1000×600 template with container 800×480
(where `scaleX = scaleY = 5/4`) the `name` placeholder at display (100, 50)
with font size 24 is drawn at (125, 62.5) with font size 30 by both the PNG
and the PDF overlay. -/
theorem c2_scaled_rendering (actualWidth actualHeight : ℚ)
    (cd : Option ContainerDimensions) (p : Placeholder) :
    pngScalePlaceholder actualWidth actualHeight cd p =
      ⟨p.x * (pngScaleFactors actualWidth actualHeight cd).scaleX,
       p.y * (pngScaleFactors actualWidth actualHeight cd).scaleY,
       jsOrNum p.fontSize 24 * (pngScaleFactors actualWidth actualHeight cd).scaleX⟩ ∧
    pdfScalePlaceholder actualWidth actualHeight cd p =
      ⟨p.x * (pdfScaleFactors actualWidth actualHeight cd).scaleX,
       p.y * (pdfScaleFactors actualWidth actualHeight cd).scaleY,
       jsOrNum p.fontSize 24 * (pdfScaleFactors actualWidth actualHeight cd).scaleX⟩ ∧
    pngOverlay 1000 600 (some ⟨some 800, some 480⟩)
        [⟨.name, 100, 50, some 24, none, none, none, none⟩]
        (fun t => match t with | .name => some "Jane Doe" | .id => none) =
      [⟨"Jane Doe", 125, 125 / 2, 30, "normal", "Arial", "#000000", "left", "top"⟩] ∧
    pdfOverlay 1000 600 (some ⟨some 800, some 480⟩)
        [⟨.name, 100, 50, some 24, none, none, none, none⟩]
        (fun t => match t with | .name => some "Jane Doe" | .id => none) =
      [⟨"Jane Doe", 125, 125 / 2, 30, "Helvetica", "#000000", "left"⟩] := by
  refine ⟨rfl, rfl, ?_, ?_⟩
  · simp [pngOverlay, pngScalePlaceholder, pngScaleFactors, resolvedValue,
      jsOrStr, jsOrNum, getSystemFont, canvasFontMap]
    norm_num
    decide
  · simp [pdfOverlay, pdfScalePlaceholder, pdfScaleFactors, resolvedValue,
      jsOrStr, jsOrNum, getSystemFont, pdfFontMap]
    norm_num
    decide

/-- C3: when the supplied container dimensions equal the true pixel
dimensions of the template image (positive in both axes), both renderers
compute `scaleX = scaleY = 1` and pass every placeholder's `x`, `y` and
(nonzero, present) `fontSize` through unchanged. -/
theorem c3_identity_when_container_matches (actualWidth actualHeight f : ℚ)
    (p : Placeholder) (hW : 0 < actualWidth) (hH : 0 < actualHeight)
    (hf : p.fontSize = some f) (hf0 : f ≠ 0) :
    pngScaleFactors actualWidth actualHeight
        (some ⟨some actualWidth, some actualHeight⟩) = ⟨1, 1⟩ ∧
    pdfScaleFactors actualWidth actualHeight
        (some ⟨some actualWidth, some actualHeight⟩) = ⟨1, 1⟩ ∧
    pngScalePlaceholder actualWidth actualHeight
        (some ⟨some actualWidth, some actualHeight⟩) p = ⟨p.x, p.y, f⟩ ∧
    pdfScalePlaceholder actualWidth actualHeight
        (some ⟨some actualWidth, some actualHeight⟩) p = ⟨p.x, p.y, f⟩ := by
  have hW' : actualWidth ≠ 0 := ne_of_gt hW
  have hH' : actualHeight ≠ 0 := ne_of_gt hH
  have h1 : pngScaleFactors actualWidth actualHeight
      (some ⟨some actualWidth, some actualHeight⟩) = ⟨1, 1⟩ := by
    simp [pngScaleFactors, jsOrNum, hW', hH', div_self]
  have h2 : pdfScaleFactors actualWidth actualHeight
      (some ⟨some actualWidth, some actualHeight⟩) = ⟨1, 1⟩ := by
    simp [pdfScaleFactors, jsOrNum, hW', hH', div_self]
  refine ⟨h1, h2, ?_, ?_⟩
  · simp [pngScalePlaceholder, h1, jsOrNum, hf, hf0]
  · simp [pdfScalePlaceholder, h2, jsOrNum, hf, hf0]

/-- Witness for `c3_identity_when_container_matches` at a 1000×600 template
and a concrete placeholder. -/
theorem c3_identity_witness :
    pngScaleFactors 1000 600 (some ⟨some 1000, some 600⟩) = ⟨1, 1⟩ ∧
    pdfScaleFactors 1000 600 (some ⟨some 1000, some 600⟩) = ⟨1, 1⟩ ∧
    pngScalePlaceholder 1000 600 (some ⟨some 1000, some 600⟩)
        ⟨.name, 100, 50, some 24, none, none, none, none⟩ = ⟨100, 50, 24⟩ ∧
    pdfScalePlaceholder 1000 600 (some ⟨some 1000, some 600⟩)
        ⟨.name, 100, 50, some 24, none, none, none, none⟩ = ⟨100, 50, 24⟩ :=
  c3_identity_when_container_matches 1000 600 24
    ⟨.name, 100, 50, some 24, none, none, none, none⟩
    (by norm_num) (by norm_num) rfl (by norm_num)

/-- C4 counterexample: with container `{width: 640, height: 0}` on a 1000×600
template, both renderers keep the provided width 640 (the claim predicts the
fallback width 800): the computed scale factors are `(25/16, 25/16)`, not the
`(1000/800, 600/480)` the claim's fallback would give. -/
theorem c4_partial_fallback_counterexample :
    pngScaleFactors 1000 600 (some ⟨some 640, some 0⟩) = ⟨25 / 16, 25 / 16⟩ ∧
    pdfScaleFactors 1000 600 (some ⟨some 640, some 0⟩) = ⟨25 / 16, 25 / 16⟩ ∧
    (⟨25 / 16, 25 / 16⟩ : ScaleFactors) ≠ ⟨1000 / 800, 600 / 480⟩ := by
  refine ⟨?_, ?_, ?_⟩
  · norm_num [pngScaleFactors, jsOrNum]
  · norm_num [pdfScaleFactors, jsOrNum]
  · simp only [ne_eq, ScaleFactors.mk.injEq, not_and]
    norm_num

/-- C4 (amended): each fallback is applied per component — a missing or zero
width is replaced by 800, and a missing or zero height by
`width · actualHeight / actualWidth` computed from the (possibly defaulted)
effective width; both renderers divide by these effective dimensions, and for
a template image with positive width and height neither divisor is zero. -/
theorem c4_fallback_prevents_division_by_zero (actualWidth actualHeight : ℚ)
    (cd : Option ContainerDimensions)
    (hW : 0 < actualWidth) (hH : 0 < actualHeight) :
    frontendDisplayWidth cd ≠ 0 ∧
    frontendDisplayHeight actualWidth actualHeight cd ≠ 0 ∧
    pngScaleFactors actualWidth actualHeight cd =
      ⟨actualWidth / frontendDisplayWidth cd,
       actualHeight / frontendDisplayHeight actualWidth actualHeight cd⟩ ∧
    pdfScaleFactors actualWidth actualHeight cd =
      ⟨actualWidth / frontendDisplayWidth cd,
       actualHeight / frontendDisplayHeight actualWidth actualHeight cd⟩ ∧
    ((cd.bind ContainerDimensions.width = none ∨
      cd.bind ContainerDimensions.width = some 0) →
      frontendDisplayWidth cd = 800) ∧
    ((cd.bind ContainerDimensions.height = none ∨
      cd.bind ContainerDimensions.height = some 0) →
      frontendDisplayHeight actualWidth actualHeight cd =
        frontendDisplayWidth cd * actualHeight / actualWidth) := by
  have hW' : actualWidth ≠ 0 := ne_of_gt hW
  have hH' : actualHeight ≠ 0 := ne_of_gt hH
  have hwid : frontendDisplayWidth cd ≠ 0 := by
    rcases hw : cd.bind ContainerDimensions.width with _ | w
    · simp [frontendDisplayWidth, jsOrNum, hw]
    · by_cases hw0 : w = 0 <;> simp [frontendDisplayWidth, jsOrNum, hw, hw0]
  have hhei : frontendDisplayHeight actualWidth actualHeight cd ≠ 0 := by
    rcases hh : cd.bind ContainerDimensions.height with _ | h
    · simpa [frontendDisplayHeight, jsOrNum, hh] using
        div_ne_zero (mul_ne_zero hwid hH') hW'
    · by_cases hh0 : h = 0
      · simpa [frontendDisplayHeight, jsOrNum, hh, hh0] using
          div_ne_zero (mul_ne_zero hwid hH') hW'
      · simp [frontendDisplayHeight, jsOrNum, hh, hh0]
  refine ⟨hwid, hhei, rfl, rfl, ?_, ?_⟩
  · rintro (hw | hw) <;> simp [frontendDisplayWidth, jsOrNum, hw]
  · rintro (hh | hh) <;> simp [frontendDisplayHeight, jsOrNum, hh]

/-- Witness for `c4_fallback_prevents_division_by_zero` with a wholly absent
`containerDimensions` on a 1000×600 template. -/
theorem c4_fallback_witness :
    (0 : ℚ) < 1000 ∧
    (frontendDisplayWidth none ≠ 0 ∧
     frontendDisplayHeight 1000 600 none ≠ 0 ∧
     pngScaleFactors 1000 600 none =
       ⟨1000 / frontendDisplayWidth none,
        600 / frontendDisplayHeight 1000 600 none⟩ ∧
     pdfScaleFactors 1000 600 none =
       ⟨1000 / frontendDisplayWidth none,
        600 / frontendDisplayHeight 1000 600 none⟩ ∧
     (((none : Option ContainerDimensions).bind ContainerDimensions.width = none ∨
       (none : Option ContainerDimensions).bind ContainerDimensions.width = some 0) →
       frontendDisplayWidth none = 800) ∧
     (((none : Option ContainerDimensions).bind ContainerDimensions.height = none ∨
       (none : Option ContainerDimensions).bind ContainerDimensions.height = some 0) →
       frontendDisplayHeight 1000 600 none =
         frontendDisplayWidth none * 600 / 1000)) :=
  ⟨by norm_num,
   c4_fallback_prevents_division_by_zero 1000 600 none (by norm_num) (by norm_num)⟩

/-- C8: placeholders whose resolved value is empty are skipped silently by
both renderers — the emitted drawing calls are exactly those of the
placeholders with non-empty resolved values (so the remaining placeholders
proceed normally), and every emitted drawing call carries non-empty text.
Both overlay loops are total functions: the skip path raises no exception. -/
theorem c8_empty_values_skipped (actualWidth actualHeight : ℚ)
    (cd : Option ContainerDimensions) (placeholders : List Placeholder)
    (vals : PlaceholderType → Option String) :
    pngOverlay actualWidth actualHeight cd placeholders vals =
      pngOverlay actualWidth actualHeight cd
        (placeholders.filter (fun p => !(resolvedValue vals p == ""))) vals ∧
    (pngOverlay actualWidth actualHeight cd placeholders vals).all
      (fun c => !(c.text == "")) = true ∧
    pdfOverlay actualWidth actualHeight cd placeholders vals =
      pdfOverlay actualWidth actualHeight cd
        (placeholders.filter (fun p => !(resolvedValue vals p == ""))) vals ∧
    (pdfOverlay actualWidth actualHeight cd placeholders vals).all
      (fun c => !(c.text == "")) = true := by
  refine ⟨?_, ?_, ?_, ?_⟩
  · induction placeholders with
    | nil => rfl
    | cons p ps ih =>
      by_cases h : resolvedValue vals p = "" <;>
        simp [pngOverlay, List.filterMap_cons, List.filter_cons, h, ih,
          pngOverlay] at ih ⊢ <;> simpa [pngOverlay] using ih
  · induction placeholders with
    | nil => rfl
    | cons p ps ih =>
      by_cases h : resolvedValue vals p = "" <;>
        simp [pngOverlay, List.filterMap_cons, h] <;> simpa [pngOverlay] using ih
  · induction placeholders with
    | nil => rfl
    | cons p ps ih =>
      by_cases h : resolvedValue vals p = "" <;>
        simp [pdfOverlay, List.filterMap_cons, List.filter_cons, h, ih,
          pdfOverlay] at ih ⊢ <;> simpa [pdfOverlay] using ih
  · induction placeholders with
    | nil => rfl
    | cons p ps ih =>
      by_cases h : resolvedValue vals p = "" <;>
        simp [pdfOverlay, List.filterMap_cons, h] <;> simpa [pdfOverlay] using ih

/-- A concrete valid template (one `name` and one `id` placeholder), used by
the witnesses. -/
def sampleTemplate : TemplateDoc :=
  ⟨"Sample", "sample.png",
   [⟨.name, 100, 50, some 24, none, none, none, none⟩,
    ⟨.id, 200, 80, some 18, none, none, none, none⟩]⟩

/-- A concrete template with an empty placeholder list. -/
def emptyTemplate : TemplateDoc := ⟨"Empty", "empty.png", []⟩

/-- C5: every certificate record is created with status `pending`; after the
orchestrator runs, its status is `generated` if and only if both the PNG and
the PDF renderer completed without throwing, and `failed` otherwise, in which
case the record carries no generated-file metadata; and the download endpoint
refuses to serve any record whose status is not `generated`. -/
theorem c5_status_state_machine (t : TemplateDoc) (certificateId : String)
    (pngResult pdfResult : Except String String) (pdfSize pngSize : ℕ)
    (h1 : t.placeholders.isEmpty = false)
    (h2 : t.placeholders.any (fun p => p.type == .name) = true)
    (h3 : t.placeholders.any (fun p => p.type == .id) = true) :
    (handleCreate (some t) certificateId
        (generateCertificate certificateId pngResult pdfResult pdfSize pngSize)).initialRecord
      = some ⟨certificateId, .pending, none⟩ ∧
    ((∃ rec, (handleCreate (some t) certificateId
        (generateCertificate certificateId pngResult pdfResult pdfSize pngSize)).finalRecord
          = some rec ∧ rec.status = .generated) ↔
      (pngResult.isOk = true ∧ pdfResult.isOk = true)) ∧
    (¬(pngResult.isOk = true ∧ pdfResult.isOk = true) →
      (handleCreate (some t) certificateId
        (generateCertificate certificateId pngResult pdfResult pdfSize pngSize)).finalRecord
          = some ⟨certificateId, .failed, none⟩) ∧
    (∀ (format : String) (rec : CertRecord) (onDisk : Bool),
      rec.status ≠ .generated →
        (handleDownload format (some rec) onDisk).served = false) := by
  have hdl : ∀ (format : String) (rec : CertRecord) (onDisk : Bool),
      rec.status ≠ .generated →
        (handleDownload format (some rec) onDisk).served = false := by
    intro format rec onDisk hrec
    have hb : (rec.status != CertStatus.generated) = true := by
      simpa [bne_iff_ne] using hrec
    by_cases hf : (format == "pdf" || format == "png") = true <;>
      simp [handleDownload, hf, hb]
  cases pngResult with
  | error e =>
    refine ⟨?_, ?_, ?_, hdl⟩ <;>
      simp [handleCreate, generateCertificate, h1, h2, h3, Except.isOk, Except.toBool]
  | ok pngPath =>
    cases pdfResult with
    | error e =>
      refine ⟨?_, ?_, ?_, hdl⟩ <;>
        simp [handleCreate, generateCertificate, h1, h2, h3, Except.isOk, Except.toBool]
    | ok pdfPath =>
      refine ⟨?_, ?_, ?_, hdl⟩ <;>
        simp [handleCreate, generateCertificate, h1, h2, h3, Except.isOk, Except.toBool]

/-- Witness for `c5_status_state_machine`: a successful run starts `pending`,
and a `failed` record is refused by the download endpoint. -/
theorem c5_status_witness :
    (handleCreate (some sampleTemplate) "CERT-2024-001"
        (generateCertificate "CERT-2024-001" (.ok "a.png") (.ok "a.pdf") 10 20)).initialRecord
      = some ⟨"CERT-2024-001", .pending, none⟩ ∧
    (handleDownload "pdf" (some ⟨"CERT-2024-001", .failed, none⟩) true).served = false :=
  ⟨(c5_status_state_machine sampleTemplate "CERT-2024-001"
      (.ok "a.png") (.ok "a.pdf") 10 20 rfl rfl rfl).1,
   (c5_status_state_machine sampleTemplate "CERT-2024-001"
      (.ok "a.png") (.ok "a.pdf") 10 20 rfl rfl rfl).2.2.2
     "pdf" ⟨"CERT-2024-001", .failed, none⟩ true (by decide)⟩

/-- C7: a creation request whose template has an empty placeholder list or
lacks a `name` or an `id` placeholder is rejected with HTTP 400 before a
certificate ID is assigned, before any record is created and before either
renderer is invoked. -/
theorem c7_validation_gate (t : TemplateDoc) (certificateId : String)
    (gen : Except String GeneratedFilesInfo)
    (h : t.placeholders.isEmpty = true ∨
         t.placeholders.any (fun p => p.type == .name) = false ∨
         t.placeholders.any (fun p => p.type == .id) = false) :
    (handleCreate (some t) certificateId gen).response.status = 400 ∧
    (handleCreate (some t) certificateId gen).response.success = false ∧
    (handleCreate (some t) certificateId gen).idAssigned = false ∧
    (handleCreate (some t) certificateId gen).initialRecord = none ∧
    (handleCreate (some t) certificateId gen).finalRecord = none ∧
    (handleCreate (some t) certificateId gen).renderersInvoked = false := by
  by_cases he : t.placeholders.isEmpty = true
  · simp [handleCreate, he]
  · rcases h with h | h | h
    · exact absurd h he
    · simp [handleCreate, he, h]
    · simp [handleCreate, he, h]

/-- Witness for `c7_validation_gate` on a template with no placeholders. -/
theorem c7_validation_witness :
    (handleCreate (some emptyTemplate) "CERT-2024-001"
        (.error "never invoked")).response.status = 400 ∧
    (handleCreate (some emptyTemplate) "CERT-2024-001"
        (.error "never invoked")).idAssigned = false ∧
    (handleCreate (some emptyTemplate) "CERT-2024-001"
        (.error "never invoked")).initialRecord = none ∧
    (handleCreate (some emptyTemplate) "CERT-2024-001"
        (.error "never invoked")).renderersInvoked = false := by
  have h := c7_validation_gate emptyTemplate "CERT-2024-001"
    (.error "never invoked") (Or.inl rfl)
  exact ⟨h.1, h.2.2.1, h.2.2.2.1, h.2.2.2.2.2⟩

/-- C10: when the rendering pipeline throws on a request that passed template
validation, the endpoint still persists the record with status `failed` and
answers HTTP 201 with `success: true` and the message
`Certificate created successfully` — the generation failure is not surfaced
as an HTTP error status. -/
theorem c10_generation_failure_still_201 (t : TemplateDoc)
    (certificateId e : String)
    (h1 : t.placeholders.isEmpty = false)
    (h2 : t.placeholders.any (fun p => p.type == .name) = true)
    (h3 : t.placeholders.any (fun p => p.type == .id) = true) :
    (handleCreate (some t) certificateId (.error e)).response =
      ⟨201, true, "Certificate created successfully"⟩ ∧
    (handleCreate (some t) certificateId (.error e)).finalRecord =
      some ⟨certificateId, .failed, none⟩ := by
  simp [handleCreate, h1, h2, h3]

/-- Witness for `c10_generation_failure_still_201` on a concrete template and
a concrete renderer error. -/
theorem c10_generation_failure_witness :
    (handleCreate (some sampleTemplate) "CERT-2024-001"
        (.error "Failed to generate PNG: boom")).response =
      ⟨201, true, "Certificate created successfully"⟩ ∧
    (handleCreate (some sampleTemplate) "CERT-2024-001"
        (.error "Failed to generate PNG: boom")).finalRecord =
      some ⟨"CERT-2024-001", .failed, none⟩ :=
  c10_generation_failure_still_201 sampleTemplate "CERT-2024-001"
    "Failed to generate PNG: boom" rfl rfl rfl

/-- The order `charListLt` is irreflexive. -/
theorem charListLt_irrefl : ∀ a, charListLt a a = false := by
  intro a
  induction a with
  | nil => rfl
  | cons c cs ih => simp [charListLt, ih]

/-- The order `charListLt` is transitive. -/
theorem charListLt_trans : ∀ (a b c : List Char), charListLt a b = true →
    charListLt b c = true → charListLt a c = true := by
  intro a
  induction a with
  | nil =>
    intro b c hab hbc
    cases c with
    | nil =>
      cases b with
      | nil => simp [charListLt] at hab
      | cons y ys => simp [charListLt] at hbc
    | cons z zs => simp [charListLt]
  | cons x xs ih =>
    intro b c hab hbc
    cases b with
    | nil => simp [charListLt] at hab
    | cons y ys =>
      cases c with
      | nil => simp [charListLt] at hbc
      | cons z zs =>
        simp only [charListLt] at hab hbc ⊢
        rcases lt_trichotomy x y with h1 | h1 | h1
        · rcases lt_trichotomy y z with h2 | h2 | h2
          · simp [lt_trans h1 h2]
          · subst h2; simp [h1]
          · rw [if_neg (lt_asymm h2), if_pos h2] at hbc; exact absurd hbc (by simp)
        · subst h1
          rw [if_neg (lt_irrefl x), if_neg (lt_irrefl x)] at hab
          rcases lt_trichotomy x z with h2 | h2 | h2
          · simp [h2]
          · subst h2
            rw [if_neg (lt_irrefl x), if_neg (lt_irrefl x)] at hbc ⊢
            exact ih ys zs hab hbc
          · rw [if_neg (lt_asymm h2), if_pos h2] at hbc; exact absurd hbc (by simp)
        · rw [if_neg (lt_asymm h1), if_pos h1] at hab; exact absurd hab (by simp)

/-- The order `charListLt` is connex: two lists that do not compare strictly one way
compare strictly the other way or are equal. -/
theorem charListLt_connex : ∀ (a b : List Char), charListLt a b = false →
    charListLt b a = true ∨ a = b := by
  intro a
  induction a with
  | nil =>
    intro b hab
    cases b with
    | nil => exact Or.inr rfl
    | cons y ys => simp [charListLt] at hab
  | cons x xs ih =>
    intro b hab
    cases b with
    | nil => exact Or.inl rfl
    | cons y ys =>
      simp only [charListLt] at hab ⊢
      rcases lt_trichotomy x y with h1 | h1 | h1
      · rw [if_pos h1] at hab; exact absurd hab (by simp)
      · subst h1
        rw [if_neg (lt_irrefl x), if_neg (lt_irrefl x)] at hab ⊢
        rcases ih ys hab with h | h
        · exact Or.inl h
        · exact Or.inr (by rw [h])
      · rw [if_neg (lt_asymm h1), if_pos h1]; exact Or.inl rfl

/-- Folding `pickLater` from `some b` yields an element of `b :: l` that no
element of the fold compares strictly above. -/
theorem foldl_pickLater_spec : ∀ (l : List String) (b m : String),
    l.foldl pickLater (some b) = some m →
    (m = b ∨ m ∈ l) ∧ charListLt m.data b.data = false ∧
    ∀ x ∈ l, charListLt m.data x.data = false := by
  intro l
  induction l with
  | nil =>
    intro b m h
    simp only [List.foldl] at h
    cases h
    exact ⟨Or.inl rfl, charListLt_irrefl _, by simp⟩
  | cons s l ih =>
    intro b m h
    simp only [List.foldl] at h
    by_cases hbs : charListLt b.data s.data = true
    · have h' : l.foldl pickLater (some s) = some m := by
        simpa [pickLater, hbs] using h
      obtain ⟨hmem, hms, hub⟩ := ih s m h'
      have hmb : charListLt m.data b.data = false := by
        by_contra hc
        have hc' : charListLt m.data b.data = true := by
          simpa using hc
        have := charListLt_trans _ _ _ hc' hbs
        rw [this] at hms
        exact absurd hms (by simp)
      refine ⟨?_, hmb, ?_⟩
      · rcases hmem with rfl | hm
        · exact Or.inr (List.mem_cons_self _ _)
        · exact Or.inr (List.mem_cons_of_mem _ hm)
      · intro x hx
        rcases List.mem_cons.mp hx with rfl | hx'
        · exact hms
        · exact hub x hx'
    · have hbs' : charListLt b.data s.data = false := by
        simpa using hbs
      have h' : l.foldl pickLater (some b) = some m := by
        simpa [pickLater, hbs'] using h
      obtain ⟨hmem, hmb, hub⟩ := ih b m h'
      refine ⟨?_, hmb, ?_⟩
      · rcases hmem with rfl | hm
        · exact Or.inl rfl
        · exact Or.inr (List.mem_cons_of_mem _ hm)
      · intro x hx
        rcases List.mem_cons.mp hx with rfl | hx'
        · by_contra hc
          have hc' : charListLt m.data x.data = true := by simpa using hc
          rcases charListLt_connex _ _ hmb with hbm | hmbeq
          · have := charListLt_trans _ _ _ hbm hc'
            rw [this] at hbs'
            exact absurd hbs' (by simp)
          · rw [← hmbeq] at hbs'
            rw [hc'] at hbs'
            simp at hbs'
        · exact hub x hx'

/-- The query model `latestCertId` returns a matching ID that no other matching ID exceeds
in the lexicographic order MongoDB sorts by. -/
theorem latestCertId_is_max (year : ℕ) (db : List String) (m : String)
    (h : latestCertId year db = some m) :
    m ∈ matchingCertIds year db ∧
    ∀ x ∈ matchingCertIds year db, charListLt m.data x.data = false := by
  unfold latestCertId at h
  cases hM : matchingCertIds year db with
  | nil => rw [hM] at h; simp [List.foldl] at h
  | cons s l =>
    rw [hM] at h
    have h' : l.foldl pickLater (some s) = some m := by
      simpa [List.foldl, pickLater] using h
    obtain ⟨hmem, hms, hub⟩ := foldl_pickLater_spec l s m h'
    refine ⟨?_, ?_⟩
    · rcases hmem with rfl | hm
      · exact List.mem_cons_self _ _
      · exact List.mem_cons_of_mem _ hm
    · intro x hx
      rcases List.mem_cons.mp hx with rfl | hx'
      · exact hms
      · exact hub x hx'

/-- C6 counterexample: with existing IDs `CERT-2024-999` and `CERT-2024-1000`
the numerically highest sequence is 1000, so the claim demands
`CERT-2024-1001`; the code takes the *lexicographically* greatest ID
(`CERT-2024-999`, since `9 > 1` character-wise), increments its parsed
sequence and returns `CERT-2024-1000`, which already exists. -/
theorem c6_lexicographic_counterexample :
    generateNextId 2024 ["CERT-2024-999", "CERT-2024-1000"] = "CERT-2024-1000" ∧
    generateNextId 2024 ["CERT-2024-999", "CERT-2024-1000"] ≠ "CERT-2024-1001" ∧
    "CERT-2024-1000" ∈ ["CERT-2024-999", "CERT-2024-1000"] := by
  decide

/-- C6 (amended): `generateNextId` returns `CERT-<year>-<seq>` where `<seq>`
is one greater than the sequence parsed from the *lexicographically* greatest
existing ID of the year (1 if none exists), left-padded to at least 3 digits;
the lexicographic and the numeric maximum agree while all sequences have
equally many digits, so generating twice in the same year with no conflicts
yields `CERT-2024-001` then `CERT-2024-002`. -/
theorem c6_next_id_from_lex_greatest (year : ℕ) (db : List String) (m : String)
    (hm : latestCertId year db = some m) :
    m ∈ matchingCertIds year db ∧
    (∀ x ∈ matchingCertIds year db, charListLt m.data x.data = false) ∧
    generateNextId year db =
      certIdYearStem year ++
        (match jsParseInt ((splitDash m).getD 2 "") with
         | some n => padStart3 (toString (n + 1))
         | none => padStart3 "NaN") ∧
    generateNextId 2024 [] = "CERT-2024-001" ∧
    generateNextId 2024 ["CERT-2024-001"] = "CERT-2024-002" := by
  obtain ⟨hmem, hub⟩ := latestCertId_is_max year db m hm
  refine ⟨hmem, hub, ?_, by decide, by decide⟩
  rcases hj : jsParseInt ((splitDash m).getD 2 "") with _ | n <;>
    simp only [List.getD, List.get?_eq_getElem?] at hj <;>
    simp [generateNextId, hm, hj]

/-- Witness for `c6_next_id_from_lex_greatest` on a two-ID database whose
lexicographically greatest matching ID is `CERT-2024-005`. -/
theorem c6_next_id_witness :
    "CERT-2024-005" ∈ matchingCertIds 2024 ["CERT-2024-003", "CERT-2024-005"] ∧
    generateNextId 2024 ["CERT-2024-003", "CERT-2024-005"] =
      certIdYearStem 2024 ++
        (match jsParseInt ((splitDash "CERT-2024-005").getD 2 "") with
         | some n => padStart3 (toString (n + 1))
         | none => padStart3 "NaN") :=
  ⟨(c6_next_id_from_lex_greatest 2024 ["CERT-2024-003", "CERT-2024-005"]
      "CERT-2024-005" (by decide)).1,
   (c6_next_id_from_lex_greatest 2024 ["CERT-2024-003", "CERT-2024-005"]
      "CERT-2024-005" (by decide)).2.2.1⟩

/-- A concrete generated certificate for the bulk-delete scenario: active,
not archived, with both generated files recorded at their schema paths. -/
def bulkSampleCert : BulkCert :=
  ⟨1, 7, "CERT-2024-001", .generated, some true, none,
   some ⟨⟨"CERT-2024-001.pdf", "generated/CERT-2024-001.pdf", 100⟩,
         ⟨"CERT-2024-001.png", "generated/CERT-2024-001.png", 200⟩⟩⟩

/-- The disk contents for the bulk-delete scenario: exactly the two generated
files of `bulkSampleCert`. -/
def bulkSampleDisk : List String :=
  ["generated/CERT-2024-001.pdf", "generated/CERT-2024-001.png"]

/-- C9 (code behaviour at the failing input): with the exact confirmation
phrase, the route hard-deletes the matching records but deletes **no** file
from disk — the unlink loop reads `certificate.pdfPath` / `certificate.pngPath`,
which are not schema paths and are always `undefined`, so for every input the
disk survives unchanged and `filesDeleted` is 0; with any other confirmation
text it returns 400 and leaves records and files untouched. -/
theorem c9_bulk_delete_files_survive (confirmText : String) (adminId : ℕ)
    (records : List BulkCert) (disk : List String) :
    (handleBulkDelete confirmText adminId records disk).disk = disk ∧
    (handleBulkDelete confirmText adminId records disk).filesDeleted = 0 ∧
    (confirmText ≠ "DELETE ALL CERTIFICATES" →
      handleBulkDelete confirmText adminId records disk =
        ⟨⟨400, false,
          "Invalid confirmation text. Please type \"DELETE ALL CERTIFICATES\" to confirm."⟩,
          records, disk, 0⟩) ∧
    (handleBulkDelete "DELETE ALL CERTIFICATES" 7 [bulkSampleCert] bulkSampleDisk).records
      = [] ∧
    (handleBulkDelete "DELETE ALL CERTIFICATES" 7 [bulkSampleCert] bulkSampleDisk).disk
      = bulkSampleDisk := by
  have hfold : ∀ (l : List BulkCert) (acc : List String × ℕ),
      l.foldl
        (fun acc c =>
          let acc1 := match c.pdfPath with
            | some p => (unlinkFile acc.1 (some p), acc.2 + 1)
            | none => acc
          match c.pngPath with
          | some p => (unlinkFile acc1.1 (some p), acc1.2 + 1)
          | none => acc1)
        acc = acc := by
    intro l
    induction l with
    | nil => intro acc; rfl
    | cons c cs ih =>
      intro acc
      simp only [List.foldl, BulkCert.pdfPath, BulkCert.pngPath]
      exact ih acc
  have hmain : ∀ (c : String) (a : ℕ) (rs : List BulkCert) (d : List String),
      (handleBulkDelete c a rs d).disk = d ∧
      (handleBulkDelete c a rs d).filesDeleted = 0 := by
    intro c a rs d
    by_cases hc : (c != "DELETE ALL CERTIFICATES") = true
    · simp [handleBulkDelete, hc]
    · by_cases hf : (rs.filter (bulkFindFilter a)).isEmpty = true
      · simp [handleBulkDelete, hc, hf]
      · simp [handleBulkDelete, hc, hf, hfold]
  refine ⟨(hmain confirmText adminId records disk).1,
          (hmain confirmText adminId records disk).2, ?_, by decide, ?_⟩
  · intro hne
    have hc : (confirmText != "DELETE ALL CERTIFICATES") = true := by
      simpa [bne_iff_ne] using hne
    simp [handleBulkDelete, hc]
  · exact (hmain "DELETE ALL CERTIFICATES" 7 [bulkSampleCert] bulkSampleDisk).1

/-- Witness for `c9_bulk_delete_files_survive` at the failing input and a
wrong confirmation text. -/
theorem c9_bulk_delete_witness :
    (handleBulkDelete "DELETE ALL CERTIFICATES" 7 [bulkSampleCert] bulkSampleDisk).disk
      = bulkSampleDisk ∧
    handleBulkDelete "delete all" 7 [bulkSampleCert] bulkSampleDisk =
      ⟨⟨400, false,
        "Invalid confirmation text. Please type \"DELETE ALL CERTIFICATES\" to confirm."⟩,
        [bulkSampleCert], bulkSampleDisk, 0⟩ :=
  ⟨(c9_bulk_delete_files_survive "DELETE ALL CERTIFICATES" 7 [bulkSampleCert]
      bulkSampleDisk).1,
   (c9_bulk_delete_files_survive "delete all" 7 [bulkSampleCert]
      bulkSampleDisk).2.2.1 (by decide)⟩

end Certificate123
